import Mathlib

/-!
Verification development for the `EmbedGRU` controller and its `callPredictor`
model (`pyhealth/models/embedgru.py`).

The Python source is shallowly embedded: pure computations become Lean
functions over `ℚ` (floats are modelled as rationals), tensors become nested
lists, the mutable training loop becomes explicit state threading, and code
that may raise becomes `Except`/explicit outcome records.  The numeric
dynamics of `torch.nn.GRU` (sigmoid/tanh gates) are abstracted as an opaque
sequence-to-sequence function field, since none of the properties below
depend on the gate arithmetic — only on how its output is routed, masked,
projected, constructed and persisted.
-/

/- ### callPredictor construction (`callPredictor.__init__`, lines 12-44) -/

/-- Constructor arguments of one `nn.GRU` in the `rnn_models` loop
(lines 36-43 of the source). -/
structure GRUSpec where
  input_size : Int
  hidden_size : Int
  num_layers : Nat
  bias : Bool
  bidirectional : Bool
deriving DecidableEq, Repr

/-- Lines 28-31: `layer_input_sizes = [embed_size] + [2*chs for chs in layer_hidden_sizes]`
when bidirectional, else `[embed_size] + layer_hidden_sizes`. -/
def layerInputSizes (embed_size : Int) (hs : List Int) (bidirectional : Bool) : List Int :=
  if bidirectional then embed_size :: hs.map (fun h => 2 * h) else embed_size :: hs

/-- Lines 36-43: the loop `for i in range(num_layers)` appending
`nn.GRU(input_size=layer_input_sizes[i], hidden_size=layer_hidden_sizes[i],
num_layers=num_layers, bias=bias, ..., bidirectional=bidirectional)` to `self.rnn_models`.
Note the source passes the *stack depth* `num_layers` as each GRU's own
`num_layers` argument. -/
def buildRnnModels (embed_size : Int) (hs : List Int) (num_layers : Nat)
    (bias bidirectional : Bool) : List GRUSpec :=
  (List.range num_layers).map (fun i =>
    { input_size := (layerInputSizes embed_size hs bidirectional).getD i 0,
      hidden_size := hs.getD i 0,
      num_layers := num_layers,
      bias := bias,
      bidirectional := bidirectional })

/- ### Module registration and state_dict keys

`callPredictor.__init__` stores `embed_func` and `output_func` as attributes of
the `nn.Module` (torch registers those), but appends the GRUs to
`self.rnn_models = []`, a plain Python list.  torch only registers submodules
assigned as attributes or held in `nn.ModuleList`/`nn.ModuleDict`; modules
inside a plain list are invisible to `parameters()` and `state_dict()`. -/

/-- One construction step of `callPredictor.__init__`, recording how a
submodule with the given parameter names is attached to the object. -/
inductive InitStep where
  /-- `self.<name> = nn.Module(...)` — registered by torch. -/
  | assignModuleAttr : String → List String → InitStep
  /-- `self.<listName>.append(nn.Module(...))` into a plain Python list at
  position `i` — NOT registered by torch. -/
  | plainListAppend : String → Nat → List String → InitStep
deriving DecidableEq, Repr

/-- Parameter names of one `nn.GRU` with `internal` stacked internal layers:
for each internal layer `l`, `weight_ih_l<l>`, `weight_hh_l<l>`, plus bias
tensors when `bias`, each duplicated with a `_reverse` suffix when
bidirectional. -/
def gruParamNames (internal : Nat) (bias bidirectional : Bool) : List String :=
  ((List.range internal).map (fun l =>
    let base := ["weight_ih_l" ++ toString l, "weight_hh_l" ++ toString l] ++
      (if bias then ["bias_ih_l" ++ toString l, "bias_hh_l" ++ toString l] else [])
    base ++ (if bidirectional then base.map (fun s => s ++ "_reverse") else []))).flatten

/-- The attachment steps performed by `callPredictor.__init__` (lines 25, 35,
36-43, 44): `rnn_models = []` plain list, `embed_func` attribute, `num_layers`
GRUs appended to the plain list, `output_func` attribute. -/
def callPredictorInitSteps (num_layers : Nat) (bias bidirectional : Bool) : List InitStep :=
  [InitStep.assignModuleAttr "embed_func" ["weight", "bias"]] ++
    (List.range num_layers).map (fun i =>
      InitStep.plainListAppend "rnn_models" i (gruParamNames num_layers bias bidirectional)) ++
    [InitStep.assignModuleAttr "output_func" ["weight", "bias"]]

/-- Keys of `module.state_dict()`: parameters of torch-registered submodules
only.  Modules appended to a plain Python list contribute nothing. -/
def stateDictKeys (steps : List InitStep) : List String :=
  (steps.map (fun s => match s with
    | InitStep.assignModuleAttr n ps => ps.map (fun p => n ++ "." ++ p)
    | InitStep.plainListAppend _ _ _ => [])).flatten

/-- Identifiers of every parameter tensor the constructed object actually
holds, registered or not (the GRUs in the plain list included, named by their
list position). -/
def allParamKeys (steps : List InitStep) : List String :=
  (steps.map (fun s => match s with
    | InitStep.assignModuleAttr n ps => ps.map (fun p => n ++ "." ++ p)
    | InitStep.plainListAppend n i ps => ps.map (fun p => n ++ "." ++ toString i ++ "." ++ p))).flatten

/- ### Checkpoint save / reload of parameter state

`fit` (line 274) saves `self.predictor.state_dict()` where `self.predictor`
is the `torch.nn.DataParallel` wrapper (line 212), whose state-dict keys carry
a `module.` prefix.  `load_model` (lines 307, 318) rebuilds a bare
`callPredictor` from the persisted config and loads
`{key[7:]: value for key, value in checkpoint['state_dict'].items()}` —
stripping the 7-character `module.` prefix.  `load_state_dict` overwrites
exactly the keys present in the dict; parameters absent from the dict keep
the fresh random initialisation. -/

/-- The checkpoint's `state_dict` content: one entry per registered key of the
wrapped predictor, with the `module.` prefix, holding the trained value. -/
def savedStateDict (steps : List InitStep) (params : String → ℚ) : List (String × ℚ) :=
  (stateDictKeys steps).map (fun k => ("module." ++ k, params k))

/-- Parameter state after `load_model` applies the prefix-stripped dict to a
freshly constructed predictor: keys present in the dict take the saved value,
all other parameters keep `fresh`. -/
def reloadParams (saved : List (String × ℚ)) (fresh : String → ℚ) : String → ℚ :=
  fun k => ((saved.map (fun kv => (kv.1.drop 7, kv.2))).lookup k).getD (fresh k)

/-- Save-then-reload round trip of `fit`'s "latest" checkpoint through
`load_model`: persist the trained parameters, rebuild from config with `fresh`
initialisation, load the persisted dict. -/
def roundTrip (steps : List InitStep) (trained fresh : String → ℚ) : String → ℚ :=
  reloadParams (savedStateDict steps trained) fresh

/- ### callPredictor.forward (lines 46-89)

Tensors are nested lists of rationals; a batch input `X` is
batch × timestep × feature.  `nn.Linear` is an affine map applied per row;
the `view`/`reshape` flatten-unflatten pair of lines 79-81 is the identity in
this per-timestep representation.  The GRU stack of line 82-83 is carried as
an opaque sequence-to-sequence function field `rnn_stack` (the composition of
the `rnn_models` loop); the claims below depend only on how its output is
masked, projected and aggregated, never on the gate arithmetic. -/

/-- Dot product of two rational vectors. -/
def dotProd (a b : List ℚ) : ℚ := (List.zipWith (fun x y => x * y) a b).sum

/-- `nn.Linear` applied to one row: `W x + b`, one output entry per
(weight-row, bias-entry) pair. -/
def linearLayer (w : List (List ℚ)) (b : List ℚ) (x : List ℚ) : List ℚ :=
  List.zipWith (fun row bi => dotProd row x + bi) w b

/-- Multiply each vector of a sequence by the matching scalar of a mask row:
`seq * m.unsqueeze(-1)` for one batch element. -/
def maskSeq (seqOut : List (List ℚ)) (mrow : List ℚ) : List (List ℚ) :=
  List.zipWith (fun v m => v.map (fun x => x * m)) seqOut mrow

/-- Sum of a list of `n`-vectors (`.sum(dim=1)` over the timestep axis). -/
def vecSum (n : Nat) (vs : List (List ℚ)) : List ℚ :=
  vs.foldl (fun acc v => List.zipWith (fun a b => a + b) acc v) (List.replicate n 0)

/-- The constructed predictor as `forward` sees it: the embedding and output
projections with their learned tensors, and the recurrent stack as an opaque
sequence transformer. -/
structure Predictor where
  input_size : Nat
  embed_size : Nat
  output_size : Nat
  label_size : Nat
  embedW : List (List ℚ)
  embedB : List ℚ
  rnn_stack : List (List ℚ) → List (List ℚ)
  outW : List (List ℚ)
  outB : List ℚ

/-- `callPredictor.forward` (lines 75-89).  Line 85 computes
`all_output = outputs * M.unsqueeze(-1)`, but line 87 immediately rebinds
`all_output` to `output_func` applied to the *unmasked* `outputs`, so the
masked product of line 85 is a dead store — kept here as `_maskedDeadStore`.
Line 88: `cur_output = (all_output * cur_M.unsqueeze(-1)).sum(dim=1)`. -/
def forwardPass (p : Predictor) (X : List (List (List ℚ))) (M curM : List (List ℚ)) :
    List (List (List ℚ)) × List (List ℚ) :=
  let _data := X.map (fun seq => seq.map (linearLayer p.embedW p.embedB))
  let outputs := _data.map p.rnn_stack
  let _maskedDeadStore := List.zipWith maskSeq outputs M
  let all_output := outputs.map (fun seq => seq.map (linearLayer p.outW p.outB))
  let cur_output := List.zipWith (fun seq cm => vecSum p.label_size (maskSeq seq cm))
    all_output curM
  (all_output, cur_output)

/-- Modelled from the spec wording of C3 (§4.1 steps 3-4): the output
projection applied to the elementwise product of the final recurrent stack's
output and the validity mask, so the projection's input is zero wherever the
mask is zero.  This is what the claim asserts `all_output` to be; it is
compared against `forwardPass` taken from the source. -/
def specMaskedAllOutput (p : Predictor) (X : List (List (List ℚ)))
    (M : List (List ℚ)) : List (List (List ℚ)) :=
  let _data := X.map (fun seq => seq.map (linearLayer p.embedW p.embedB))
  let outputs := _data.map p.rnn_stack
  let masked := List.zipWith maskSeq outputs M
  masked.map (fun seq => seq.map (linearLayer p.outW p.outB))

/-- Concrete one-feature, one-label predictor whose recurrent stack returns
`[1]` at every timestep; used to evaluate the forward pass at a concrete
input. -/
def cexPredictor : Predictor :=
  { input_size := 1, embed_size := 1, output_size := 1, label_size := 1,
    embedW := [[1]], embedB := [0],
    rnn_stack := fun s => s.map (fun _ => [1]),
    outW := [[1]], outB := [0] }

/- ### EmbedGRU controller configuration (`EmbedGRU.__init__`, lines 93-190,
and `EmbedGRU._args_check`, lines 368-415)

Python floats become `ℚ`, ints become `Int`, flags `Bool`, names `String`.
The `isinstance` halves of the asserts hold by construction in this typed
embedding and are noted where they occur.  The source field `learn_ratio` is
spelled `learn_rate` here. -/

/-- The keyword arguments of `EmbedGRU.__init__` (equally, the hyperparameter
fields the controller stores). -/
structure CtrlConfig where
  task : String
  n_epoch : Int
  n_batchsize : Int
  /-- source name: `learn_ratio` -/
  learn_rate : ℚ
  weight_decay : ℚ
  n_epoch_saved : Int
  embed_size : Int
  layer_hidden_sizes : List Int
  bias : Bool
  dropout : ℚ
  bidirectional : Bool
  batch_first : Bool
  loss_name : String
  target_repl : Bool
  target_repl_coef : ℚ
  aggregate : String
  optimizer_name : String
  use_gpu : Bool
deriving DecidableEq, Repr

/-- Line 179: `self.num_layers = len(self.layer_hidden_sizes)`. -/
def ctrlNumLayers (c : CtrlConfig) : Int := (c.layer_hidden_sizes.length : Int)

/-- `EmbedGRU._args_check` (lines 368-412): the assert chain, in source
order, each with its exact message string; the first failing assert raises.
`isinstance` checks (and the pure-`isinstance` asserts on the Bool/String
fields) hold by typing.  The dropout assert's message (line 396) names
`learn_ratio`, and the n_epoch_saved assert's message (line 386) names
`n_epoch` and embeds a literal `{0}).format(...)` because the format call
sits inside the string literal in the source. -/
def args_check (c : CtrlConfig) : Except String Unit :=
  if ¬(c.task = "mortality" ∨ c.task = "phenotyping") then
    .error "fill in correct task (str, [\x27mortality\x27,\x27phenotyping\x27])"
  else if ¬(0 < c.n_batchsize) then
    .error "fill in correct n_batchsize (int, >0)"
  else if ¬(0 < c.n_epoch) then
    .error "fill in correct n_epoch (int, >0)"
  else if ¬(0 < c.learn_rate) then
    .error "fill in correct learn_ratio (float, >0.)"
  else if ¬(0 ≤ c.weight_decay) then
    .error "fill in correct weight_decay (float, >=0.)"
  else if ¬(0 < c.n_epoch_saved ∧ c.n_epoch_saved < c.n_epoch) then
    .error "fill in correct n_epoch (int, >0 and <{0}).format(self.n_epoch)"
  else if ¬(0 < c.embed_size) then
    .error "fill in correct embed_size (int, >0)"
  else if ¬(0 < c.layer_hidden_sizes.length) then
    .error "fill in correct layer_hidden_sizes (list, such as [10,20,15])"
  else if ¬(0 < ctrlNumLayers c) then
    .error "fill in correct num_layers (int, >0)"
  else if ¬(0 < c.dropout ∧ c.dropout < 1) then
    .error "fill in correct learn_ratio (float, >0 and <1.)"
  else if ¬(0 ≤ c.target_repl_coef ∧ c.target_repl_coef ≤ 1) then
    .error "fill in correct target_repl_coef (float, >=0 and <=1.)"
  else if ¬(c.aggregate = "sum" ∨ c.aggregate = "avg") then
    .error "fill in correct aggregate (str, [\x27sum\x27,\x27avg\x27])"
  else if ¬(c.optimizer_name = "adam") then
    .error "fill in correct optimizer_name (str, [\x27adam\x27])"
  else
    .ok ()

/-- Whether an `Except` outcome is a raised error. -/
def isError (r : Except String Unit) : Bool :=
  match r with
  | .error _ => true
  | .ok () => false

/-- The controller's hyperparameter attributes, each `none` until the
corresponding `self.<field> = ...` assignment has executed. -/
structure CtrlState where
  task : Option String := none
  n_batchsize : Option Int := none
  n_epoch : Option Int := none
  learn_rate : Option ℚ := none
  weight_decay : Option ℚ := none
  n_epoch_saved : Option Int := none
  embed_size : Option Int := none
  layer_hidden_sizes : Option (List Int) := none
  num_layers : Option Int := none
  bias : Option Bool := none
  dropout : Option ℚ := none
  bidirectional : Option Bool := none
  batch_first : Option Bool := none
  loss_name : Option String := none
  target_repl : Option Bool := none
  target_repl_coef : Option ℚ := none
  aggregate : Option String := none
  optimizer_name : Option String := none
  use_gpu : Option Bool := none
deriving DecidableEq, Repr

/-- Lines 171-189 of `EmbedGRU.__init__`: every hyperparameter is assigned to
`self` (in source order) before anything else happens. -/
def assignFields (c : CtrlConfig) : CtrlState :=
  { task := some c.task,
    n_batchsize := some c.n_batchsize,
    n_epoch := some c.n_epoch,
    learn_rate := some c.learn_rate,
    weight_decay := some c.weight_decay,
    n_epoch_saved := some c.n_epoch_saved,
    embed_size := some c.embed_size,
    layer_hidden_sizes := some c.layer_hidden_sizes,
    num_layers := some (ctrlNumLayers c),
    bias := some c.bias,
    dropout := some c.dropout,
    bidirectional := some c.bidirectional,
    batch_first := some c.batch_first,
    loss_name := some c.loss_name,
    target_repl := some c.target_repl,
    target_repl_coef := some c.target_repl_coef,
    aggregate := some c.aggregate,
    optimizer_name := some c.optimizer_name,
    use_gpu := some c.use_gpu }

/-- `EmbedGRU.__init__` (lines 170-190): assign every field, then run
`self._args_check()`.  The result is the attribute state the controller is
left with, together with the validation outcome (an assertion raised by
`_args_check` propagates out of the constructor). -/
def embedGRUInit (c : CtrlConfig) : CtrlState × Except String Unit :=
  (assignFields c, args_check c)

/-- Modelled from the spec's words (§4.2, §8): a configuration satisfying
every documented constraint.  Used only to compare the documented "valid
configuration" notion against the source's `_args_check`. -/
def SpecValidConfig (c : CtrlConfig) : Prop :=
  (c.task = "mortality" ∨ c.task = "phenotyping") ∧
    0 < c.n_epoch ∧ 0 < c.n_batchsize ∧ 0 < c.learn_rate ∧ 0 ≤ c.weight_decay ∧
    0 < c.n_epoch_saved ∧ c.n_epoch_saved < c.n_epoch ∧
    0 < c.embed_size ∧ c.layer_hidden_sizes ≠ [] ∧
    (∀ h ∈ c.layer_hidden_sizes, 0 < h) ∧
    0 < c.dropout ∧ c.dropout < 1 ∧
    0 ≤ c.target_repl_coef ∧ c.target_repl_coef ≤ 1 ∧
    (c.aggregate = "sum" ∨ c.aggregate = "avg") ∧
    c.optimizer_name = "adam"

/-- The source's default keyword arguments (lines 93-113), except that
`dropout` is replaced by `2`, an invalid value outside `(0,1)`. -/
def badDropoutConfig : CtrlConfig :=
  { task := "phenotyping", n_epoch := 100, n_batchsize := 5,
    learn_rate := 1/10000, weight_decay := 1/10000, n_epoch_saved := 1,
    embed_size := 16, layer_hidden_sizes := [10, 20, 15], bias := true,
    dropout := 2, bidirectional := true, batch_first := true,
    loss_name := "L1LossSigmoid", target_repl := false, target_repl_coef := 0,
    aggregate := "sum", optimizer_name := "adam", use_gpu := false }

/-- The source's default keyword arguments (lines 93-113), unchanged — a
configuration meeting every documented constraint. -/
def defaultConfig : CtrlConfig :=
  { badDropoutConfig with dropout := 1/2 }

/- ### The training loop's checkpoint schedule (`EmbedGRU.fit`, lines 266-284)

Per epoch `fit` computes a validation score, then issues up to three
`_save_checkpoint(unit, epoch, is_best)` calls, in this order:
  - `if test_score < best_score:` update `best_score` and save with
    `is_best=True` (lines 278-281);
  - `if epoch % self.n_epoch_saved == 0:` save with the epoch number and
    `is_best=False` (lines 282-283);
  - save with epoch argument `-1` (the "latest" marker) and `is_best=False`
    (line 284), unconditionally.
`best_score` starts at `1e5` (line 266).  The reader-driven numeric training
is external; the schedule depends only on the per-epoch validation scores,
which are therefore taken as an input `scores : Nat → ℚ`. -/

/-- One `_save_checkpoint(unit, epoch, is_best)` call: the epoch argument
(`-1` marks the "latest" snapshot) and the `is_best` flag. -/
structure SaveEvent where
  epoch : Int
  is_best : Bool
deriving DecidableEq, Repr

/-- The checkpoint calls issued at epoch `e` when the epoch's validation
score is `s` and the best score so far is `best` (lines 278-284, in source
order). -/
def epochSaves (nSaved : Nat) (e : Nat) (s best : ℚ) : List SaveEvent :=
  (if s < best then [⟨(e : Int), true⟩] else []) ++
    (if e % nSaved = 0 then [⟨(e : Int), false⟩] else []) ++
    [⟨-1, false⟩]

/-- The epoch loop from epoch `e` with `n` epochs remaining and current
`best_score` `best`: the per-epoch lists of checkpoint calls.  The best score
is updated to `scores e` exactly when `scores e < best` (line 279). -/
def fitAux (nSaved : Nat) (scores : Nat → ℚ) : Nat → Nat → ℚ → List (List SaveEvent)
  | 0, _, _ => []
  | n + 1, e, best =>
      epochSaves nSaved e (scores e) best ::
        fitAux nSaved scores n (e + 1) (if scores e < best then scores e else best)

/-- The full checkpoint schedule of `fit`: epochs `0 … n_epoch - 1`, initial
`best_score = 1e5` (line 266). -/
def fitSchedule (nEpoch nSaved : Nat) (scores : Nat → ℚ) : List (List SaveEvent) :=
  fitAux nSaved scores nEpoch 0 (100000 : ℚ)

/-- The checkpoint calls `fit` issues during epoch `e`. -/
def epochEvents (nEpoch nSaved : Nat) (scores : Nat → ℚ) (e : Nat) : List SaveEvent :=
  (fitSchedule nEpoch nSaved scores).getD e []

/-- The `best_score` value held when epoch `e0 + i` starts, given it was
`b` when epoch `e0` started: threading of line 279 through `i` epochs. -/
def runBest (scores : Nat → ℚ) : Nat → Nat → ℚ → ℚ
  | _, 0, b => b
  | e0, i + 1, b => runBest scores (e0 + 1) i (if scores e0 < b then scores e0 else b)

/- ### EmbedGRU.load_model (lines 286-321)

The persisted predictor config and the fresh random initialisation come from
collaborators (`_load_predictor_config`, `callPredictor` init); they enter as
the `steps`/`fresh` arguments.  The file system is a set of existing paths.
Line 307 assigns `self.predictor = callPredictor(**predictor_config)` BEFORE
the existence check of line 313; the missing-file branch (line 321) only
prints, leaving that fresh model in place. -/

/-- The controller state `load_model` leaves behind: the model now held in
`self.predictor` (`none` would mean no model attribute was set), the string
printed, the recorded `_loaded_epoch`, and whether an exception escaped. -/
structure LoadOutcome where
  predictor : Option (String → ℚ)
  printed : String
  loaded_epoch : String
  raised : Bool

/-- `EmbedGRU.load_model`: rebuild a bare predictor from the persisted config
with fresh parameters, resolve the checkpoint label (line 308-311: an empty
argument defaults to `"best"`), then — only if the checkpoint file exists —
overwrite the registered parameters with the prefix-stripped saved dict. -/
def load_model (fresh : String → ℚ) (files : List String)
    (checkout_dir : String) (ckpt : String → List (String × ℚ))
    (loadedEpochArg : String) : LoadOutcome :=
  let predictorFresh : String → ℚ := fresh
  let le := if loadedEpochArg ≠ "" then loadedEpochArg else "best"
  let path := checkout_dir ++ "/" ++ le ++ ".checkpoint.pth.tar"
  if path ∈ files then
    { predictor := some (reloadParams (ckpt path) predictorFresh),
      printed := "load " ++ le ++ "-th epoch model",
      loaded_epoch := le, raised := false }
  else
    { predictor := some predictorFresh,
      printed := "no exist " ++ le ++ "-th epoch model, please dbcheck in dir " ++ checkout_dir,
      loaded_epoch := le, raised := false }

/- ### EmbedGRU.get_results (lines 323-344)

Each artifact is wrapped in `try: ... = pickle.load(open(path, 'rb'))
except IOError: print(...)`: a missing file raises inside `open`, is caught,
and the local variable stays unassigned.  Line 342 then builds
`results = {'hat_y': hat_y, 'y': y}`, which raises `UnboundLocalError` if
either local was never assigned — that exception is outside both `try`
blocks and escapes. -/

/-- Outcome of a Python code path: a returned value, or an escaping
exception. -/
inductive PyOutcome (α : Type) where
  | ok : α → PyOutcome α
  | exn : String → PyOutcome α
deriving DecidableEq, Repr

/-- `EmbedGRU.get_results`: the list of diagnostics printed and the final
outcome (the loaded `(hat_y, y)` pair, or the exception that escapes).
Loaded pickle blobs are represented by the `store` contents at the path. -/
def get_results (files : List String) (store : String → ℚ)
    (result_dir loaded_epoch : String) : List String × PyOutcome (ℚ × ℚ) :=
  let hatPath := result_dir ++ "/" ++ "hat_y." ++ loaded_epoch
  let yPath := result_dir ++ "/" ++ "y." ++ loaded_epoch
  let hat_y : Option ℚ := if hatPath ∈ files then some (store hatPath) else none
  let d1 : List String :=
    if hatPath ∈ files then [] else
      ["Error: cannot find file " ++ hatPath ++ " or load failed"]
  let y : Option ℚ := if yPath ∈ files then some (store yPath) else none
  let d2 : List String :=
    if yPath ∈ files then [] else
      ["Error: cannot find file " ++ yPath ++ " or load failed"]
  match hat_y, y with
  | some h, some yv => (d1 ++ d2, .ok (h, yv))
  | none, _ =>
      (d1 ++ d2, .exn "UnboundLocalError: local variable hat_y referenced before assignment")
  | some _, none =>
      (d1 ++ d2, .exn "UnboundLocalError: local variable y referenced before assignment")

/-- Helper: the validation-score sequence 5, 3, 4, 2 of the spec's
best-score-monotonicity scenario. -/
def scenarioScores : Nat → ℚ := fun i => ([5, 3, 4, 2] : List ℚ).getD i 0

/- ### Lemmas about the checkpoint schedule -/

/-- Indexing the epoch loop: epoch `e0 + i` runs with the best score obtained
by threading line 279 through the `i` preceding epochs. -/
theorem fitAux_getD (nSaved : Nat) (scores : Nat → ℚ) :
    ∀ (n i e0 : Nat) (b : ℚ), i < n →
      (fitAux nSaved scores n e0 b).getD i [] =
        epochSaves nSaved (e0 + i) (scores (e0 + i)) (runBest scores e0 i b) := by
  intro n
  induction n with
  | zero => intro i e0 b h; omega
  | succ n ih =>
      intro i e0 b h
      cases i with
      | zero => simp [fitAux, runBest]
      | succ i =>
          have h2 : e0 + (i + 1) = (e0 + 1) + i := by omega
          simp only [fitAux, List.getD_cons_succ]
          rw [h2]
          exact ih i (e0 + 1) (if scores e0 < b then scores e0 else b) (by omega)

/-- `s` beats the threaded best score iff it beats the starting value and
every score seen on the way. -/
theorem lt_runBest (scores : Nat → ℚ) :
    ∀ (i e0 : Nat) (b s : ℚ),
      (s < runBest scores e0 i b ↔ s < b ∧ ∀ j, j < i → s < scores (e0 + j)) := by
  intro i
  induction i with
  | zero =>
      intro e0 b s
      simp [runBest]
  | succ i ih =>
      intro e0 b s
      have hmin : (if scores e0 < b then scores e0 else b) = min (scores e0) b := by
        rcases le_or_lt b (scores e0) with hc | hc
        · rw [if_neg (not_lt.mpr hc), min_eq_right hc]
        · rw [if_pos hc, min_eq_left hc.le]
      rw [show runBest scores e0 (i + 1) b =
            runBest scores (e0 + 1) i (if scores e0 < b then scores e0 else b) from rfl,
        hmin, ih, lt_min_iff]
      constructor
      · rintro ⟨⟨hs0, hsb⟩, hall⟩
        refine ⟨hsb, ?_⟩
        intro j hj
        cases j with
        | zero => simpa using hs0
        | succ k =>
            have hk := hall k (by omega)
            have he : (e0 + 1) + k = e0 + (k + 1) := by omega
            rwa [he] at hk
      · rintro ⟨hsb, hall⟩
        refine ⟨⟨by simpa using hall 0 (by omega), hsb⟩, ?_⟩
        intro j hj
        have hk := hall (j + 1) (by omega)
        have he : e0 + (j + 1) = (e0 + 1) + j := by omega
        rwa [he] at hk

/-- The best-flagged call appears among an epoch's checkpoint calls iff the
score beat the best so far. -/
theorem best_mem_epochSaves (nSaved e : Nat) (s best : ℚ) :
    ((⟨(e : Int), true⟩ : SaveEvent) ∈ epochSaves nSaved e s best ↔ s < best) := by
  unfold epochSaves
  split_ifs with h1 h2 <;> simp_all [SaveEvent.mk.injEq]

/-- The numbered (non-best) call appears among an epoch's checkpoint calls
iff `epoch % n_epoch_saved == 0`. -/
theorem numbered_mem_epochSaves (nSaved e : Nat) (s best : ℚ) :
    ((⟨(e : Int), false⟩ : SaveEvent) ∈ epochSaves nSaved e s best ↔ e % nSaved = 0) := by
  have hne : ((e : Int)) ≠ -1 := by omega
  unfold epochSaves
  split_ifs with h1 h2 <;> simp_all [SaveEvent.mk.injEq]

/-- The latest-marker call (epoch argument -1) appears among every epoch's
checkpoint calls. -/
theorem latest_mem_epochSaves (nSaved e : Nat) (s best : ℚ) :
    (⟨-1, false⟩ : SaveEvent) ∈ epochSaves nSaved e s best := by
  unfold epochSaves
  simp

/-- Claim C2 counterexample: with the first epoch's validation score equal to
the initial sentinel `1e5`, the first epoch triggers no "best" save, refuting
"the first epoch always triggers a best save, for every possible validation
score" (the sentinel in line 266 is `1e5`, not +infinity). -/
theorem bestSave_firstEpoch_cex :
    ¬ ((⟨0, true⟩ : SaveEvent) ∈ epochEvents 2 1 (fun _ => 100000) 0) := by
  have h0 : epochEvents 2 1 (fun _ => 100000) 0 = epochSaves 1 0 100000 100000 := rfl
  rw [h0, show ((⟨0, true⟩ : SaveEvent)) = ⟨((0 : Nat) : Int), true⟩ from rfl,
    best_mem_epochSaves]
  exact lt_irrefl _

/-- Claim C2 (amended): during training, a "best" checkpoint is persisted at
epoch `e` if and only if that epoch's validation score is strictly lower than
the validation scores of all prior epochs AND strictly lower than the initial
sentinel, which is `1e5` (not +infinity); in particular the first epoch
triggers a "best" save exactly when its score is below `1e5`. -/
theorem bestSave_iff (nEpoch nSaved : Nat) (scores : Nat → ℚ) (e : Nat)
    (h : e < nEpoch) :
    ((⟨(e : Int), true⟩ : SaveEvent) ∈ epochEvents nEpoch nSaved scores e ↔
      scores e < 100000 ∧ ∀ j, j < e → scores e < scores j) := by
  rw [epochEvents, fitSchedule, fitAux_getD nSaved scores nEpoch e 0 _ h]
  simp only [Nat.zero_add]
  rw [best_mem_epochSaves, lt_runBest]
  simp only [Nat.zero_add]

/-- Witness for `bestSave_iff` on the spec's scenario scores 5, 3, 4, 2:
epoch 1 (score 3) writes a "best" checkpoint, epoch 2 (score 4) does not. -/
theorem bestSave_iff_witness :
    ((⟨((1 : Nat) : Int), true⟩ : SaveEvent) ∈ epochEvents 4 1 scenarioScores 1) ∧
      ¬ ((⟨((2 : Nat) : Int), true⟩ : SaveEvent) ∈ epochEvents 4 1 scenarioScores 2) := by
  constructor
  · refine (bestSave_iff 4 1 scenarioScores 1 (by norm_num)).2 ⟨?_, ?_⟩
    · norm_num [scenarioScores]
    · intro j hj
      interval_cases j
      norm_num [scenarioScores]
  · intro hmem
    obtain ⟨-, hall⟩ := (bestSave_iff 4 1 scenarioScores 2 (by norm_num)).1 hmem
    have h1 := hall 1 (by norm_num)
    norm_num [scenarioScores] at h1

/-- Claim C9: in every epoch of the training loop a "latest" snapshot is
persisted unconditionally (via the epoch = -1 marker of line 284), and a
numbered snapshot is persisted exactly when `epoch % n_epoch_saved == 0`
(lines 282-283); with `n_epoch_saved = 1` every epoch also gets a numbered
snapshot. -/
theorem latestAndNumberedSaves (nEpoch nSaved : Nat) (scores : Nat → ℚ) (e : Nat)
    (h : e < nEpoch) :
    (⟨-1, false⟩ : SaveEvent) ∈ epochEvents nEpoch nSaved scores e ∧
      ((⟨(e : Int), false⟩ : SaveEvent) ∈ epochEvents nEpoch nSaved scores e ↔
        e % nSaved = 0) ∧
      (nSaved = 1 → (⟨(e : Int), false⟩ : SaveEvent) ∈
        epochEvents nEpoch nSaved scores e) := by
  rw [epochEvents, fitSchedule, fitAux_getD nSaved scores nEpoch e 0 _ h]
  simp only [Nat.zero_add]
  refine ⟨latest_mem_epochSaves _ _ _ _, numbered_mem_epochSaves _ _ _ _, ?_⟩
  intro h1
  rw [numbered_mem_epochSaves, h1]
  exact Nat.mod_one e

/-- Witness for `latestAndNumberedSaves` at the spec's scenario
(`n_epoch = 2`, `n_epoch_saved = 1`), epoch 0. -/
theorem latestAndNumberedSaves_witness :
    (⟨-1, false⟩ : SaveEvent) ∈ epochEvents 2 1 scenarioScores 0 ∧
      ((⟨((0 : Nat) : Int), false⟩ : SaveEvent) ∈ epochEvents 2 1 scenarioScores 0 ↔
        0 % 1 = 0) ∧
      (1 = 1 → (⟨((0 : Nat) : Int), false⟩ : SaveEvent) ∈
        epochEvents 2 1 scenarioScores 0) :=
  latestAndNumberedSaves 2 1 scenarioScores 0 (by norm_num)

/- ### Claim theorems: construction, persistence, forward masking -/

/-- Claim C10: for a hidden-size list of length `n` (so the controller passes
`num_layers = n`), each of the `n` GRU modules in the stack is itself
constructed with `num_layers = n` internal recurrent layers (not 1), so the
summed recurrent depth of the stack is `n * n`. -/
theorem gruStackDepth (embed_size : Int) (hs : List Int) (bias bidirectional : Bool) :
    (buildRnnModels embed_size hs hs.length bias bidirectional).length = hs.length ∧
      (∀ g ∈ buildRnnModels embed_size hs hs.length bias bidirectional,
        g.num_layers = hs.length) ∧
      ((buildRnnModels embed_size hs hs.length bias bidirectional).map
        (fun g => g.num_layers)).sum = hs.length * hs.length := by
  refine ⟨by simp [buildRnnModels], ?_, ?_⟩
  · intro g hg
    simp only [buildRnnModels, List.mem_map] at hg
    obtain ⟨i, -, rfl⟩ := hg
    rfl
  · simp only [buildRnnModels, List.map_map]
    have hc : ((fun g : GRUSpec => g.num_layers) ∘ fun i : Nat =>
        ({ input_size := (layerInputSizes embed_size hs bidirectional).getD i 0,
           hidden_size := hs.getD i 0, num_layers := hs.length, bias := bias,
           bidirectional := bidirectional } : GRUSpec)) = fun _ => hs.length := rfl
    rw [hc, List.map_const']
    simp [List.sum_replicate, smul_eq_mul]

/-- Claim C1 (evaluation at the failing input): with the default architecture
(3 stacked GRUs, bias, bidirectional), the GRU parameters exist on the model
but are absent from `state_dict()` — `rnn_models` is a plain Python list, not
an `nn.ModuleList` — so saving the "latest" checkpoint and immediately
reloading it loses every GRU parameter (trained value 1 comes back as the
fresh value 0) while registered parameters round-trip. -/
theorem checkpointRoundTrip_missesGRU :
    ("rnn_models.0.weight_ih_l0" ∈ allParamKeys (callPredictorInitSteps 3 true true)) ∧
      ("rnn_models.0.weight_ih_l0" ∉ stateDictKeys (callPredictorInitSteps 3 true true)) ∧
      roundTrip (callPredictorInitSteps 3 true true) (fun _ => 1) (fun _ => 0)
        "rnn_models.0.weight_ih_l0" = 0 ∧
      roundTrip (callPredictorInitSteps 3 true true) (fun _ => 1) (fun _ => 0)
        "embed_func.weight" = 1 := by
  refine ⟨by decide, by decide, by decide, by decide⟩

/-- Claim C3 (evaluation at the failing input): at a batch whose validity
mask is 0 at timestep 1 while the recurrent stack's output there is `[1]`,
the source's `all_output` (line 87, computed from the unmasked `outputs`)
differs from the spec's masked projection (whose timestep-1 projection input
is zero): the masking of line 85 is a dead store. -/
theorem forwardIgnoresValidityMask :
    (forwardPass cexPredictor [[[0], [0]]] [[1, 0]] [[0, 1]]).1 ≠
        specMaskedAllOutput cexPredictor [[[0], [0]]] [[1, 0]] ∧
      (forwardPass cexPredictor [[[0], [0]]] [[1, 0]] [[0, 1]]).1 = [[[1], [1]]] ∧
      specMaskedAllOutput cexPredictor [[[0], [0]]] [[1, 0]] = [[[1], [0]]] := by
  have h1 : (forwardPass cexPredictor [[[0], [0]]] [[1, 0]] [[0, 1]]).1 = [[[1], [1]]] := by
    simp [forwardPass, cexPredictor, linearLayer, dotProd]
  have h2 : specMaskedAllOutput cexPredictor [[[0], [0]]] [[1, 0]] = [[[1], [0]]] := by
    simp [specMaskedAllOutput, cexPredictor, linearLayer, dotProd, maskSeq]
  refine ⟨?_, h1, h2⟩
  rw [h1, h2]
  intro hEq
  simp only [List.cons.injEq] at hEq
  norm_num at hEq

/-- Claim C5 (evaluation at the failing input): with the predictions artifact
`hat_y.best` absent (only `y.best` on disk), `get_results` prints the
diagnostic for the missing file but then raises `UnboundLocalError` while
building the results dict on line 342 — an exception escapes. -/
theorem getResultsMissingArtifactRaises :
    (get_results ["rdir/y.best"] (fun _ => 0) "rdir" "best").1 =
        ["Error: cannot find file rdir/hat_y.best or load failed"] ∧
      (get_results ["rdir/y.best"] (fun _ => 0) "rdir" "best").2 =
        .exn "UnboundLocalError: local variable hat_y referenced before assignment" := by
  refine ⟨by decide, by decide⟩

/- ### Claim theorems: reload, construction-time validation -/

/-- Claim C4 counterexample: reloading when no checkpoint file exists at all
leaves the controller holding a freshly constructed model — `self.predictor`
is assigned on line 307, before the existence check — refuting "leaves the
controller without a usable model (does not fabricate a model)". -/
theorem loadModelFabricatesModel_cex :
    (load_model (fun _ => 0) [] "ckdir" (fun _ => []) "latest").predictor =
        some (fun _ => 0) ∧
      (load_model (fun _ => 0) [] "ckdir" (fun _ => []) "latest").raised = false ∧
      (load_model (fun _ => 0) [] "ckdir" (fun _ => []) "latest").printed =
        "no exist latest-th epoch model, please dbcheck in dir ckdir" :=
  ⟨rfl, rfl, rfl⟩

/-- Claim C4 (amended): for every reload request whose target checkpoint file
does not exist, `load_model` prints a diagnostic and no exception escapes,
but the controller is NOT left without a model: `self.predictor` holds the
freshly constructed predictor (assigned from the persisted config before the
existence check), with no parameter loaded from any checkpoint. -/
theorem loadModelMissingCheckpoint (fresh : String → ℚ) (files : List String)
    (checkout_dir : String) (ckpt : String → List (String × ℚ)) (arg : String)
    (h : (checkout_dir ++ "/" ++ (if arg ≠ "" then arg else "best") ++
      ".checkpoint.pth.tar") ∉ files) :
    (load_model fresh files checkout_dir ckpt arg).predictor = some fresh ∧
      (load_model fresh files checkout_dir ckpt arg).raised = false ∧
      (load_model fresh files checkout_dir ckpt arg).printed =
        "no exist " ++ (if arg ≠ "" then arg else "best") ++
          "-th epoch model, please dbcheck in dir " ++ checkout_dir := by
  simp only [load_model]
  rw [if_neg h]
  exact ⟨rfl, rfl, rfl⟩

/-- Witness for `loadModelMissingCheckpoint`: concrete reload of "latest"
against an empty checkpoint directory. -/
theorem loadModelMissingCheckpoint_witness :
    (load_model (fun _ => 1) [] "ck" (fun _ => []) "latest").predictor =
        some (fun _ => 1) ∧
      (load_model (fun _ => 1) [] "ck" (fun _ => []) "latest").raised = false ∧
      (load_model (fun _ => 1) [] "ck" (fun _ => []) "latest").printed =
        "no exist " ++ (if ("latest" : String) ≠ "" then "latest" else "best") ++
          "-th epoch model, please dbcheck in dir " ++ "ck" :=
  loadModelMissingCheckpoint (fun _ => 1) [] "ck" (fun _ => []) "latest" (by simp)

/-- Claim C6 counterexample: constructing with `dropout = 2` (all other
arguments the source defaults) raises the line-395 assertion whose message
names `learn_ratio` — not the offending field `dropout` — and by that point
the dropout value (and every other hyperparameter) has already been stored on
the controller, refuting "no partial mutation occurs before validation
completes". -/
theorem initValidationFailure_cex :
    (embedGRUInit badDropoutConfig).2 =
        .error "fill in correct learn_ratio (float, >0 and <1.)" ∧
      (embedGRUInit badDropoutConfig).1.dropout = some 2 ∧
      (embedGRUInit badDropoutConfig).1.task = some "phenotyping" := by
  have hck : args_check badDropoutConfig =
      .error "fill in correct learn_ratio (float, >0 and <1.)" := by
    norm_num [args_check, badDropoutConfig, ctrlNumLayers]
  exact ⟨hck, rfl, rfl⟩

/-- Claim C6 (amended): invalid configurations raise an assertion error, but
its message names the violated constraint and not always the offending field
(the dropout message names `learn_ratio`), and the assignments of lines
171-189 run before `_args_check` (line 190): whenever construction fails
validation, every hyperparameter field is already stored on the controller
with its configured value. -/
theorem initAssignsBeforeValidation (c : CtrlConfig) (m : String)
    (_h : (embedGRUInit c).2 = .error m) :
    (embedGRUInit c).1.task = some c.task ∧
      (embedGRUInit c).1.n_batchsize = some c.n_batchsize ∧
      (embedGRUInit c).1.n_epoch = some c.n_epoch ∧
      (embedGRUInit c).1.learn_rate = some c.learn_rate ∧
      (embedGRUInit c).1.weight_decay = some c.weight_decay ∧
      (embedGRUInit c).1.n_epoch_saved = some c.n_epoch_saved ∧
      (embedGRUInit c).1.embed_size = some c.embed_size ∧
      (embedGRUInit c).1.layer_hidden_sizes = some c.layer_hidden_sizes ∧
      (embedGRUInit c).1.num_layers = some (ctrlNumLayers c) ∧
      (embedGRUInit c).1.bias = some c.bias ∧
      (embedGRUInit c).1.dropout = some c.dropout ∧
      (embedGRUInit c).1.bidirectional = some c.bidirectional ∧
      (embedGRUInit c).1.batch_first = some c.batch_first ∧
      (embedGRUInit c).1.loss_name = some c.loss_name ∧
      (embedGRUInit c).1.target_repl = some c.target_repl ∧
      (embedGRUInit c).1.target_repl_coef = some c.target_repl_coef ∧
      (embedGRUInit c).1.aggregate = some c.aggregate ∧
      (embedGRUInit c).1.optimizer_name = some c.optimizer_name ∧
      (embedGRUInit c).1.use_gpu = some c.use_gpu := by
  refine ⟨rfl, rfl, rfl, rfl, rfl, rfl, rfl, rfl, rfl, rfl, rfl, rfl, rfl, rfl,
    rfl, rfl, rfl, rfl, rfl⟩

/-- Witness for `initAssignsBeforeValidation` at the invalid-dropout
configuration. -/
theorem initAssignsBeforeValidation_witness :
    (embedGRUInit badDropoutConfig).1.task = some badDropoutConfig.task ∧
      (embedGRUInit badDropoutConfig).1.n_batchsize = some badDropoutConfig.n_batchsize ∧
      (embedGRUInit badDropoutConfig).1.n_epoch = some badDropoutConfig.n_epoch ∧
      (embedGRUInit badDropoutConfig).1.learn_rate = some badDropoutConfig.learn_rate ∧
      (embedGRUInit badDropoutConfig).1.weight_decay = some badDropoutConfig.weight_decay ∧
      (embedGRUInit badDropoutConfig).1.n_epoch_saved = some badDropoutConfig.n_epoch_saved ∧
      (embedGRUInit badDropoutConfig).1.embed_size = some badDropoutConfig.embed_size ∧
      (embedGRUInit badDropoutConfig).1.layer_hidden_sizes =
        some badDropoutConfig.layer_hidden_sizes ∧
      (embedGRUInit badDropoutConfig).1.num_layers = some (ctrlNumLayers badDropoutConfig) ∧
      (embedGRUInit badDropoutConfig).1.bias = some badDropoutConfig.bias ∧
      (embedGRUInit badDropoutConfig).1.dropout = some badDropoutConfig.dropout ∧
      (embedGRUInit badDropoutConfig).1.bidirectional = some badDropoutConfig.bidirectional ∧
      (embedGRUInit badDropoutConfig).1.batch_first = some badDropoutConfig.batch_first ∧
      (embedGRUInit badDropoutConfig).1.loss_name = some badDropoutConfig.loss_name ∧
      (embedGRUInit badDropoutConfig).1.target_repl = some badDropoutConfig.target_repl ∧
      (embedGRUInit badDropoutConfig).1.target_repl_coef =
        some badDropoutConfig.target_repl_coef ∧
      (embedGRUInit badDropoutConfig).1.aggregate = some badDropoutConfig.aggregate ∧
      (embedGRUInit badDropoutConfig).1.optimizer_name =
        some badDropoutConfig.optimizer_name ∧
      (embedGRUInit badDropoutConfig).1.use_gpu = some badDropoutConfig.use_gpu :=
  initAssignsBeforeValidation badDropoutConfig
    "fill in correct learn_ratio (float, >0 and <1.)"
    (show args_check badDropoutConfig =
        Except.error "fill in correct learn_ratio (float, >0 and <1.)" by
      norm_num [args_check, badDropoutConfig, ctrlNumLayers])

/-- An assert step passes iff its condition holds and the rest of the chain
passes. -/
theorem ite_not_ok {P : Prop} [Decidable P] (msg : String) (rest : Except String Unit) :
    ((if ¬P then Except.error msg else rest) = .ok ()) ↔ (P ∧ rest = .ok ()) := by
  by_cases h : P
  · simp [h]
  · simp [h]

/-- `_args_check` passes exactly when every asserted range/membership
condition holds. -/
theorem args_check_ok_iff (c : CtrlConfig) :
    args_check c = .ok () ↔
      ((c.task = "mortality" ∨ c.task = "phenotyping") ∧ 0 < c.n_batchsize ∧
        0 < c.n_epoch ∧ 0 < c.learn_rate ∧ 0 ≤ c.weight_decay ∧
        (0 < c.n_epoch_saved ∧ c.n_epoch_saved < c.n_epoch) ∧ 0 < c.embed_size ∧
        0 < c.layer_hidden_sizes.length ∧ 0 < ctrlNumLayers c ∧
        (0 < c.dropout ∧ c.dropout < 1) ∧
        (0 ≤ c.target_repl_coef ∧ c.target_repl_coef ≤ 1) ∧
        (c.aggregate = "sum" ∨ c.aggregate = "avg") ∧ c.optimizer_name = "adam") := by
  unfold args_check
  simp only [ite_not_ok]
  simp

/-- Claim C7: any configuration with dropout outside (0,1), or
`n_epoch_saved ≥ n_epoch`, or negative `weight_decay`, fails `_args_check`
(the construction-time assertion the spec taxonomy calls ConfigurationError);
conversely every configuration satisfying all documented constraints passes
validation. -/
theorem configValidation (c : CtrlConfig) :
    ((c.dropout ≤ 0 ∨ 1 ≤ c.dropout ∨ c.n_epoch ≤ c.n_epoch_saved ∨
        c.weight_decay < 0) → isError (args_check c) = true) ∧
      (SpecValidConfig c → args_check c = .ok ()) := by
  constructor
  · intro hbad
    cases hr : args_check c with
    | error m => simp [isError]
    | ok u =>
        exfalso
        cases u
        obtain ⟨-, -, -, -, hw, ⟨-, hs2⟩, -, -, -, ⟨hd1, hd2⟩, -, -, -⟩ :=
          (args_check_ok_iff c).1 hr
        rcases hbad with hb0 | hb0 | hb0 | hb0
        · linarith
        · linarith
        · linarith
        · linarith
  · intro hv
    obtain ⟨ht, he, hb, hl, hw, hs1, hs2, hem, hne, -, hd1, hd2, hc1, hc2,
      hagg, hopt⟩ := hv
    rw [args_check_ok_iff]
    exact ⟨ht, hb, he, hl, hw, ⟨hs1, hs2⟩, hem, List.length_pos.mpr hne,
      Int.natCast_pos.mpr (List.length_pos.mpr hne), ⟨hd1, hd2⟩, ⟨hc1, hc2⟩,
      hagg, hopt⟩

/-- Witness for `configValidation`: the invalid-dropout configuration fails,
the source's default configuration passes. -/
theorem configValidation_witness :
    isError (args_check badDropoutConfig) = true ∧
      args_check defaultConfig = .ok () :=
  ⟨(configValidation badDropoutConfig).1 (by norm_num [badDropoutConfig]),
    (configValidation defaultConfig).2 (by
      norm_num [SpecValidConfig, defaultConfig, badDropoutConfig]
      exact List.cons_ne_nil 10 [20, 15])⟩

/- ### Claim C8: forward-pass output shapes -/

/-- Elements of a `zipWith` come from elements of the two lists. -/
theorem mem_zipWith_exists {α β γ : Type} {f : α → β → γ} {l₁ : List α}
    {l₂ : List β} {x : γ} (h : x ∈ List.zipWith f l₁ l₂) :
    ∃ a ∈ l₁, ∃ b ∈ l₂, x = f a b := by
  induction l₁ generalizing l₂ with
  | nil => simp at h
  | cons a l ih =>
      cases l₂ with
      | nil => simp at h
      | cons b l' =>
          rw [List.zipWith_cons_cons] at h
          rcases List.mem_cons.mp h with h | h
          · exact ⟨a, by simp, b, by simp, h⟩
          · obtain ⟨a', ha', b', hb', rfl⟩ := ih h
            exact ⟨a', by simp [ha'], b', by simp [hb'], rfl⟩

/-- Folding vector addition over vectors of the accumulator's length
preserves that length. -/
theorem foldl_add_length (vs : List (List ℚ)) :
    ∀ acc : List ℚ, (∀ v ∈ vs, v.length = acc.length) →
      (vs.foldl (fun a v => List.zipWith (fun x y => x + y) a v) acc).length =
        acc.length := by
  induction vs with
  | nil => intro acc _; rfl
  | cons v vs ih =>
      intro acc h
      have hv : v.length = acc.length := h v (List.mem_cons_self v vs)
      have hlen : (List.zipWith (fun x y => x + y) acc v).length = acc.length := by
        rw [List.length_zipWith _ _ _, hv, min_self]
      have hrest : ∀ w ∈ vs,
          w.length = (List.zipWith (fun x y => x + y) acc v).length := by
        intro w hw
        rw [hlen]
        exact h w (List.mem_cons_of_mem v hw)
      rw [List.foldl_cons, ih _ hrest, hlen]

/-- `vecSum n` of vectors of length `n` has length `n`. -/
theorem vecSum_length (n : Nat) (vs : List (List ℚ)) (h : ∀ v ∈ vs, v.length = n) :
    (vecSum n vs).length = n := by
  unfold vecSum
  have h2 : ∀ v ∈ vs, v.length = (List.replicate n (0 : ℚ)).length := by
    intro v hv
    rw [List.length_replicate]
    exact h v hv
  rw [foldl_add_length vs _ h2, List.length_replicate]

/-- `linearLayer` output length is governed by the weight/bias lengths
alone. -/
theorem linearLayer_length (w : List (List ℚ)) (b x : List ℚ) :
    (linearLayer w b x).length = min w.length b.length :=
  List.length_zipWith _ _ _

/-- Claim C8: for every valid architecture (length-preserving recurrent
stack, output projection of label dimension L) and every input of shape
(B, T, F) with masks of shape (B, T) and B, T, F, L ≥ 1, the forward pass
returns `all_output` of shape (B, T, L) and `cur_output` of shape (B, L). -/
theorem forwardShapes (p : Predictor) (X : List (List (List ℚ)))
    (M curM : List (List ℚ)) (B T F L : Nat)
    (_hB : 1 ≤ B) (_hT : 1 ≤ T) (_hF : 1 ≤ F) (_hL : 1 ≤ L)
    (hstack : ∀ s, (p.rnn_stack s).length = s.length)
    (hoW : p.outW.length = L) (hoB : p.outB.length = L) (hlab : p.label_size = L)
    (_hFin : F = p.input_size) (hX : X.length = B)
    (hXrow : ∀ r ∈ X, r.length = T)
    (_hXval : ∀ r ∈ X, ∀ v ∈ r, v.length = F)
    (_hM : M.length = B)
    (hcM : curM.length = B) (_hcMrow : ∀ r ∈ curM, r.length = T) :
    (forwardPass p X M curM).1.length = B ∧
      (∀ r ∈ (forwardPass p X M curM).1, r.length = T ∧ ∀ v ∈ r, v.length = L) ∧
      (forwardPass p X M curM).2.length = B ∧
      (∀ v ∈ (forwardPass p X M curM).2, v.length = L) := by
  have hall1 : (forwardPass p X M curM).1 =
      ((X.map (fun seq => seq.map (linearLayer p.embedW p.embedB))).map
        p.rnn_stack).map (fun seq => seq.map (linearLayer p.outW p.outB)) := rfl
  have hall2 : (forwardPass p X M curM).2 =
      List.zipWith (fun seq cm => vecSum p.label_size (maskSeq seq cm))
        (forwardPass p X M curM).1 curM := rfl
  have hrows : ∀ r ∈ (forwardPass p X M curM).1,
      r.length = T ∧ ∀ v ∈ r, v.length = L := by
    intro r hr
    rw [hall1] at hr
    simp only [List.mem_map] at hr
    obtain ⟨x0, hx0, rfl⟩ := hr
    obtain ⟨d, ⟨x1, hx1, rfl⟩, rfl⟩ := hx0
    constructor
    · rw [List.length_map, hstack, List.length_map]
      exact hXrow x1 hx1
    · intro v hv
      simp only [List.mem_map] at hv
      obtain ⟨y, -, rfl⟩ := hv
      rw [linearLayer_length, hoW, hoB, min_self]
  refine ⟨?_, hrows, ?_, ?_⟩
  · rw [hall1]
    simp [hX]
  · rw [hall2, List.length_zipWith _ _ _, hall1]
    simp [hX, hcM]
  · intro v hv
    rw [hall2] at hv
    obtain ⟨seq, hseq, cm, -, rfl⟩ := mem_zipWith_exists hv
    have hseqL : ∀ w ∈ seq, w.length = L := (hrows seq hseq).2
    have hmask : ∀ w ∈ maskSeq seq cm, w.length = p.label_size := by
      intro w hw
      obtain ⟨x0, hx0, m, -, rfl⟩ := mem_zipWith_exists hw
      rw [List.length_map, hseqL x0 hx0, hlab]
    rw [vecSum_length p.label_size _ hmask, hlab]

/-- Witness for `forwardShapes`: the concrete one-feature predictor on a
1 × 1 × 1 batch with unit masks. -/
theorem forwardShapes_witness :
    (forwardPass cexPredictor [[[0]]] [[1]] [[1]]).1.length = 1 ∧
      (∀ r ∈ (forwardPass cexPredictor [[[0]]] [[1]] [[1]]).1,
        r.length = 1 ∧ ∀ v ∈ r, v.length = 1) ∧
      (forwardPass cexPredictor [[[0]]] [[1]] [[1]]).2.length = 1 ∧
      (∀ v ∈ (forwardPass cexPredictor [[[0]]] [[1]] [[1]]).2, v.length = 1) :=
  forwardShapes cexPredictor [[[0]]] [[1]] [[1]] 1 1 1 1
    (by norm_num) (by norm_num) (by norm_num) (by norm_num)
    (by intro s; simp [cexPredictor])
    (by rfl) (by rfl) (by rfl) (by rfl) (by rfl)
    (by simp) (by simp) (by rfl) (by rfl) (by simp)
